import Mathlib

/-
Verification of the postgres reconciliation modules: a shallow embedding of
src/salt/modules/postgres.py and the state modules
src/salt/states/postgres_database.py and src/salt/states/postgres_user.py.

External effects are made explicit: the configuration stores (opts, pillar)
are lookup functions, and the command-invocation collaborator (cmd.run) is an
oracle giving the output of the i-th external command of a call.  Every module
function returns, besides its Python return value, the ordered trace of
external commands it issued (command line plus environment overrides) and the
log messages it emitted.  A `none` return value models an uncaught Python
exception.
-/

namespace Salt

/-- Python truthiness of an optional string value: None and the empty string
are falsy, every other string is truthy. -/
def truthy : Option String → Bool
  | none => false
  | some s => s != ""

/-- Python short-circuit `or` on optional string values. -/
def pyOr (a b : Option String) : Option String :=
  if truthy a then a else b

/-- One component of connection-parameter resolution (postgres.py lines
60-68): `if not arg: arg = opts.get(key) or pillar.get(key) or dflt`. -/
def chain (arg o p dflt : Option String) : Option String :=
  if truthy arg then arg else pyOr o (pyOr p dflt)

/-- The ambient execution environment: the minion configuration map
(opts), the pillar map, the dry-run flag (opts[test] as read by the state
modules), and the command-invocation collaborator, modelled as an oracle
giving the output of the i-th external command run during a call. -/
structure World where
  opts : String → Option String
  pillar : String → Option String
  test : Bool
  responses : Nat → String

/-- Resolved connection parameters: the tuple returned by
`_connection_defaults`.  pguser, pghost and pgport always resolve to a
string; pgpassword may remain unset. -/
structure Conn where
  pguser : String
  pgpassword : Option String
  pghost : String
  pgport : String
deriving DecidableEq

/-- postgres.py `_connection_defaults` (lines 51-70): fill each missing (Python
falsy) connection parameter from opts, then pillar, then a fixed default
("postgres", "127.0.0.1", "5432"); the password has no default. -/
def _connection_defaults (w : World) (pguser pgpassword pghost pgport : Option String) : Conn :=
  { pguser := (chain pguser (w.opts "postgres.pguser") (w.pillar "postgres.pguser") (some "postgres")).getD "",
    pgpassword := chain pgpassword (w.opts "postgres.pgpassword") (w.pillar "postgres.pgpassword") none,
    pghost := (chain pghost (w.opts "postgres.pghost") (w.pillar "postgres.pghost") (some "127.0.0.1")).getD "",
    pgport := (chain pgport (w.opts "postgres.pgport") (w.pillar "postgres.pgport") (some "5432")).getD "" }

/-- An external command invocation: the composed command line and the
environment-variable overrides passed to cmd.run. -/
structure Cmd where
  line : String
  env : List (String × String)
deriving DecidableEq

/-- Result of a module function: its Python return value (`none` models an
uncaught exception), the ordered trace of external commands issued, and the
log messages emitted. -/
structure Res (α : Type) where
  val : Option α
  cmds : List Cmd
  logs : List String
deriving DecidableEq

/-- The env dict each module function passes to cmd.run: it binds PGPASSWORD
exactly when the resolved password is truthy (postgres.py lines 90-92,
157-158, 217-218, 257-258, 327-329, 372-374, 398-399). -/
def pgpassEnv (pgpassword : Option String) : List (String × String) :=
  if truthy pgpassword then [("PGPASSWORD", pgpassword.getD "")] else []

/-- Python `str.split(sep)` for a one-character separator, on the character
list: every occurrence separates, empty segments are kept, and the empty
string yields one empty segment. -/
def splitOnChar (sep : Char) : List Char → List (List Char)
  | [] => [[]]
  | c :: rest =>
    let r := splitOnChar sep rest
    if c == sep then [] :: r
    else
      match r with
      | [] => [[c]]
      | h :: t => (c :: h) :: t

/-- Python `str.split(sep)` for a one-character separator. -/
def pySplit (sep : Char) (s : String) : List String :=
  (splitOnChar sep s.data).map (fun l => String.mk l)

/-- Python `str.strip()`: remove whitespace from both ends. -/
def pyStrip (s : String) : String :=
  String.mk (((s.data.dropWhile Char.isWhitespace).reverse.dropWhile Char.isWhitespace).reverse)

/-- Python `str.endswith(t)`. -/
def pyEndsWith (s t : String) : Bool :=
  s.data.reverse.take t.data.length == t.data.reverse

/-- Helper for `pyReplace`, with explicit fuel (the length of the subject). -/
def pyReplaceAux (pat sub : List Char) : Nat → List Char → List Char
  | 0, s => s
  | fuel + 1, s =>
    match s with
    | [] => []
    | c :: rest =>
      if s.take pat.length == pat then sub ++ pyReplaceAux pat sub fuel (s.drop pat.length)
      else c :: pyReplaceAux pat sub fuel rest

/-- Python `str.replace(pat, sub)`: replace every occurrence, left to right. -/
def pyReplace (s pat sub : String) : String :=
  String.mk (pyReplaceAux pat.data sub.data s.data.length s.data)

/-- The lines of the raw output that split on the column separator into
exactly `cols` segments (postgres.py lines 97 and 263). -/
def qualLines (cols : Nat) (lines : List String) : List String :=
  lines.filter (fun x => (pySplit '|' x).length == cols)

/-- The tabular parse common to db_list (cols = 6, lines 97-104) and user_list
(cols = 13, lines 263-270), applied to the output already split into lines:
the first qualifying line is the header; each later qualifying line whose
first trimmed segment is nonempty becomes one record, pairing the trimmed
header segments with the trimmed line segments, the trailing segment dropped
on both sides.  `none` models the IndexError raised by the unguarded header
access `lines[0]` when no line qualifies. -/
def parse_lines (cols : Nat) (lines : List String) :
    Option (List (List (String × String))) :=
  match qualLines cols lines with
  | [] => none
  | l0 :: rest =>
    let header := (pySplit '|' l0).map pyStrip
    some (rest.filterMap (fun ln =>
      let line := (pySplit '|' ln).map pyStrip
      if line.headD "" == "" then none
      else some (List.zip header.dropLast line.dropLast)))

/-- The tabular parse starting from the raw cmd.run output. -/
def parse_tabular (cols : Nat) (raw : String) :
    Option (List (List (String × String))) :=
  parse_lines cols (pySplit '\n' raw)

/-- postgres.py db_list (lines 77-104): run `psql -w -l` and parse the output
with expected column count 6. -/
def db_list (w : World) (k : Nat) (pguser pgpassword pghost pgport : Option String) :
    Res (List (List (String × String))) :=
  let conn := _connection_defaults w pguser pgpassword pghost pgport
  let cmd := "psql -w -l -h " ++ conn.pghost ++ " -U " ++ conn.pguser ++ "  -p " ++ conn.pgport
  { val := parse_tabular 6 (w.responses k),
    cmds := [{ line := cmd, env := pgpassEnv conn.pgpassword }],
    logs := [] }

/-- Python `dict(pairs).get(key)`: the last binding of the key wins. -/
def dictGet (l : List (String × String)) (key : String) : Option String :=
  (l.reverse.find? (fun q => q.1 == key)).map (fun q => q.2)

/-- postgres.py db_exists (lines 107-123): some listed record has Name equal
to the given name. -/
def db_exists (w : World) (k : Nat) (name : String)
    (pguser pgpassword pghost pgport : Option String) : Res Bool :=
  let conn := _connection_defaults w pguser pgpassword pghost pgport
  let r := db_list w k (some conn.pguser) conn.pgpassword (some conn.pghost) (some conn.pgport)
  { val := r.val.map (fun dbs => dbs.any (fun db => dictGet db "Name" == some name)),
    cmds := r.cmds, logs := r.logs }

/-- The create-and-verify tail of db_create (postgres.py lines 188-194): run
the composed createdb command (its output is ignored), then re-probe the
database and report accordingly. -/
def db_create_run (w : World) (k : Nat) (name : String) (conn : Conn) (cmd : String)
    (cmds0 : List Cmd) (logs0 : List String) : Res Bool :=
  let runCmd : Cmd := { line := cmd, env := pgpassEnv conn.pgpassword }
  let e := db_exists w (k + 1) name (some conn.pguser) conn.pgpassword (some conn.pghost) (some conn.pgport)
  match e.val with
  | none => { val := none, cmds := cmds0 ++ runCmd :: e.cmds, logs := logs0 ++ e.logs }
  | some true => { val := some true, cmds := cmds0 ++ runCmd :: e.cmds, logs := logs0 ++ e.logs }
  | some false =>
    { val := some false, cmds := cmds0 ++ runCmd :: e.cmds,
      logs := logs0 ++ e.logs ++ ["Failed to create DB \x27" ++ name ++ "\x27"] }

/-- postgres.py db_create (lines 126-194).  The `loc` argument models the
source parameter named `local` (a keyword here). -/
def db_create (w : World) (k : Nat) (name : String)
    (pguser pgpassword pghost pgport : Option String)
    (tablespace encoding loc lc_collate lc_ctype owner template : Option String) : Res Bool :=
  let conn := _connection_defaults w pguser pgpassword pghost pgport
  let e1 := db_exists w k name (some conn.pguser) conn.pgpassword (some conn.pghost) (some conn.pgport)
  match e1.val with
  | none => { val := none, cmds := e1.cmds, logs := e1.logs }
  | some true =>
    { val := some false, cmds := e1.cmds,
      logs := e1.logs ++ ["DB \x27" ++ name ++ "\x27 already exists"] }
  | some false =>
    let cmd0 := "createdb -w -h " ++ conn.pghost ++ " -U " ++ conn.pguser ++ " -p " ++ conn.pgport ++ " " ++ name
    let cmd1 := if truthy tablespace then cmd0 ++ " -D " ++ tablespace.getD "" else cmd0
    let cmd2 := if truthy encoding then cmd1 ++ " -E " ++ encoding.getD "" else cmd1
    let cmd3 := if truthy loc then cmd2 ++ " -l " ++ loc.getD "" else cmd2
    let cmd4 := if truthy lc_collate then cmd3 ++ " --lc-collate " ++ lc_collate.getD "" else cmd3
    let cmd5 := if truthy lc_ctype then cmd4 ++ " --lc-ctype " ++ lc_ctype.getD "" else cmd4
    let cmd6 := if truthy owner then cmd5 ++ " -O " ++ owner.getD "" else cmd5
    if truthy template then
      let e2 := db_exists w (k + e1.cmds.length) (template.getD "")
        (some conn.pguser) conn.pgpassword (some conn.pghost) (some conn.pgport)
      match e2.val with
      | none => { val := none, cmds := e1.cmds ++ e2.cmds, logs := e1.logs ++ e2.logs }
      | some true =>
        db_create_run w (k + e1.cmds.length + e2.cmds.length) name conn
          (cmd6 ++ " -T " ++ template.getD "") (e1.cmds ++ e2.cmds) (e1.logs ++ e2.logs)
      | some false =>
        { val := some false, cmds := e1.cmds ++ e2.cmds,
          logs := e1.logs ++ e2.logs ++ ["template \x27" ++ template.getD "" ++ "\x27 does not exist."] }
    else
      db_create_run w (k + e1.cmds.length) name conn cmd6 e1.cmds e1.logs

/-- postgres.py db_remove (lines 197-238): probe, optionally terminate active
sessions (force), drop, re-probe. -/
def db_remove (w : World) (k : Nat) (name : String)
    (pguser pgpassword pghost pgport : Option String) (force : Bool) : Res Bool :=
  let conn := _connection_defaults w pguser pgpassword pghost pgport
  let e1 := db_exists w k name (some conn.pguser) conn.pgpassword (some conn.pghost) (some conn.pgport)
  match e1.val with
  | none => { val := none, cmds := e1.cmds, logs := e1.logs }
  | some false =>
    { val := some false, cmds := e1.cmds,
      logs := e1.logs ++ ["DB \x27" ++ name ++ "\x27 does not exist"] }
  | some true =>
    let env := pgpassEnv conn.pgpassword
    let forceCmds : List Cmd :=
      if force then
        [{ line := "psql -w -h " ++ conn.pghost ++ " -U " ++ conn.pguser ++ " -p " ++ conn.pgport ++
             " -c \x27SELECT pg_terminate_backend(pg_stat_activity.procpid) FROM pg_stat_activity WHERE pg_stat_activity.datname=\"" ++ name ++ "\"\x27",
           env := env }]
      else []
    let dropCmd : Cmd :=
      { line := "dropdb -w -h " ++ conn.pghost ++ " -U " ++ conn.pguser ++ " -p " ++ conn.pgport ++ " " ++ name,
        env := env }
    let e2 := db_exists w (k + e1.cmds.length + forceCmds.length + 1) name
      (some conn.pguser) conn.pgpassword (some conn.pghost) (some conn.pgport)
    match e2.val with
    | none => { val := none, cmds := e1.cmds ++ forceCmds ++ dropCmd :: e2.cmds, logs := e1.logs ++ e2.logs }
    | some false => { val := some true, cmds := e1.cmds ++ forceCmds ++ dropCmd :: e2.cmds, logs := e1.logs ++ e2.logs }
    | some true =>
      { val := some false, cmds := e1.cmds ++ forceCmds ++ dropCmd :: e2.cmds,
        logs := e1.logs ++ e2.logs ++ ["Failed to delete DB \x27" ++ name ++ "\x27."] }

/-- postgres.py user_list (lines 244-270): SELECT * FROM pg_roles, parsed with
expected column count 13. -/
def user_list (w : World) (k : Nat) (pguser pgpassword pghost pgport : Option String) :
    Res (List (List (String × String))) :=
  let conn := _connection_defaults w pguser pgpassword pghost pgport
  let cmd := "psql -w -h " ++ conn.pghost ++ " -U " ++ conn.pguser ++ " -p " ++ conn.pgport ++
    " -P pager postgres -c \"SELECT * FROM pg_roles\""
  { val := parse_tabular 13 (w.responses k),
    cmds := [{ line := cmd, env := pgpassEnv conn.pgpassword }],
    logs := [] }

/-- postgres.py user_exists (lines 272-288): some listed record has rolname
equal to the given name. -/
def user_exists (w : World) (k : Nat) (name : String)
    (pguser pgpassword pghost pgport : Option String) : Res Bool :=
  let conn := _connection_defaults w pguser pgpassword pghost pgport
  let r := user_list w k (some conn.pguser) conn.pgpassword (some conn.pghost) (some conn.pgport)
  { val := r.val.map (fun us => us.any (fun u => dictGet u "rolname" == some name)),
    cmds := r.cmds, logs := r.logs }

/-- A Python value returned by user_create / user_update: either the bool
False (pre-check short-circuit) or the raw cmd.run output string. -/
inductive PyRet where
  | bool : Bool → PyRet
  | str : String → PyRet
deriving DecidableEq

/-- Python truthiness of such a value: False is falsy, a string is truthy
exactly when nonempty. -/
def PyRet.isTruthy : PyRet → Bool
  | .bool b => b
  | .str s => s != ""

/-- postgres.py user_create (lines 290-333).  Note it returns the raw cmd.run
output of the CREATE USER command, with no verifying re-probe. -/
def user_create (w : World) (k : Nat) (username : String)
    (pguser pgpassword pghost pgport : Option String)
    (createdb createuser encrypted : Bool) (password : Option String) : Res PyRet :=
  let conn := _connection_defaults w pguser pgpassword pghost pgport
  let e1 := user_exists w k username (some conn.pguser) conn.pgpassword (some conn.pghost) (some conn.pgport)
  match e1.val with
  | none => { val := none, cmds := e1.cmds, logs := e1.logs }
  | some true =>
    { val := some (.bool false), cmds := e1.cmds,
      logs := e1.logs ++ ["User \x27" ++ username ++ "\x27 already exists"] }
  | some false =>
    let sub0 := "CREATE USER " ++ username ++ " WITH"
    let sub1 := if truthy password then sub0 ++ " PASSWORD \x27" ++ password.getD "" ++ "\x27" else sub0
    let sub2 := if createdb then sub1 ++ " CREATEDB" else sub1
    let sub3 := if createuser then sub2 ++ " CREATEUSER" else sub2
    let sub4 := if encrypted then sub3 ++ " ENCRYPTED" else sub3
    let sub5 := if pyEndsWith sub4 "WITH" then pyReplace sub4 " WITH" "" else sub4
    let cmd := "psql -w -h " ++ conn.pghost ++ " -U " ++ conn.pguser ++ " -p " ++ conn.pgport ++
      " -c \"" ++ sub5 ++ "\""
    { val := some (.str (w.responses (k + e1.cmds.length))),
      cmds := e1.cmds ++ [{ line := cmd, env := pgpassEnv conn.pgpassword }],
      logs := e1.logs }

/-- postgres.py user_update (lines 335-378).  The pre-check on line 355 passes
its arguments positionally — `user_exists(username, pguser, pghost, pgport)` —
so pghost lands in the pgpassword slot and pgport in the pghost slot.  Like
user_create, it returns the raw cmd.run output with no re-probe. -/
def user_update (w : World) (k : Nat) (username : String)
    (pguser pgpassword pghost pgport : Option String)
    (createdb createuser encrypted : Bool) (password : Option String) : Res PyRet :=
  let conn := _connection_defaults w pguser pgpassword pghost pgport
  let e1 := user_exists w k username (some conn.pguser) (some conn.pghost) (some conn.pgport) none
  match e1.val with
  | none => { val := none, cmds := e1.cmds, logs := e1.logs }
  | some false =>
    { val := some (.bool false), cmds := e1.cmds,
      logs := e1.logs ++ ["User \x27" ++ username ++ "\x27 does not exist"] }
  | some true =>
    let sub0 := "ALTER USER " ++ username ++ " WITH"
    let sub1 := if truthy password then sub0 ++ " PASSWORD \x27" ++ password.getD "" ++ "\x27" else sub0
    let sub2 := if createdb then sub1 ++ " CREATEDB" else sub1
    let sub3 := if createuser then sub2 ++ " CREATEUSER" else sub2
    let sub4 := if encrypted then sub3 ++ " ENCRYPTED" else sub3
    let sub5 := if pyEndsWith sub4 "WITH" then pyReplace sub4 " WITH" "" else sub4
    let cmd := "psql -w -h " ++ conn.pghost ++ " -U " ++ conn.pguser ++ " -p " ++ conn.pgport ++
      " -c \"" ++ sub5 ++ "\""
    { val := some (.str (w.responses (k + e1.cmds.length))),
      cmds := e1.cmds ++ [{ line := cmd, env := pgpassEnv conn.pgpassword }],
      logs := e1.logs }

/-- postgres.py user_remove (lines 380-408).  Both probes (lines 392 and 404)
pass their arguments positionally — `user_exists(username, pguser, pghost,
pgport)` — shifting pghost into the pgpassword slot and pgport into the
pghost slot, with pgport left to default. -/
def user_remove (w : World) (k : Nat) (username : String)
    (pguser pgpassword pghost pgport : Option String) : Res Bool :=
  let conn := _connection_defaults w pguser pgpassword pghost pgport
  let e1 := user_exists w k username (some conn.pguser) (some conn.pghost) (some conn.pgport) none
  match e1.val with
  | none => { val := none, cmds := e1.cmds, logs := e1.logs }
  | some false =>
    { val := some false, cmds := e1.cmds,
      logs := e1.logs ++ ["User \x27" ++ username ++ "\x27 does not exist"] }
  | some true =>
    let dropCmd : Cmd :=
      { line := "dropuser -w -h " ++ conn.pghost ++ " -U " ++ conn.pguser ++ " -p " ++ conn.pgport ++ " " ++ username,
        env := pgpassEnv conn.pgpassword }
    let e2 := user_exists w (k + e1.cmds.length + 1) username (some conn.pguser) (some conn.pghost) (some conn.pgport) none
    match e2.val with
    | none => { val := none, cmds := e1.cmds ++ dropCmd :: e2.cmds, logs := e1.logs ++ e2.logs }
    | some false => { val := some true, cmds := e1.cmds ++ dropCmd :: e2.cmds, logs := e1.logs ++ e2.logs }
    | some true =>
      { val := some false, cmds := e1.cmds ++ dropCmd :: e2.cmds,
        logs := e1.logs ++ e2.logs ++ ["Failed to delete user \x27" ++ username ++ "\x27."] }

/-- The dict returned by a state function: target name, changes, result
(True / False / the None pending sentinel) and human-readable comment. -/
structure StateRet where
  name : String
  changes : List (String × String)
  result : Option Bool
  comment : String
deriving DecidableEq

end Salt

namespace Salt.PostgresDatabase

/-- states/postgres_database.py present (lines 15-66). -/
def present (w : World) (k : Nat) (name : String) (owner : Option String)
    (pguser pgpassword pghost pgport : Option String) : Res StateRet :=
  let r0 : StateRet :=
    { name := name, changes := [], result := some true,
      comment := "Database " ++ name ++ " is already present" }
  let e := db_exists w k name pguser pgpassword pghost pgport
  match e.val with
  | none => { val := none, cmds := e.cmds, logs := e.logs }
  | some true => { val := some r0, cmds := e.cmds, logs := e.logs }
  | some false =>
    if w.test then
      { val := some { r0 with
                      result := none,
                      comment := "Database " ++ name ++ " is set to be created" },
        cmds := e.cmds, logs := e.logs }
    else
      let c := db_create w (k + e.cmds.length) name pguser pgpassword pghost pgport
        none none none none none owner none
      match c.val with
      | none => { val := none, cmds := e.cmds ++ c.cmds, logs := e.logs ++ c.logs }
      | some true =>
        { val := some { r0 with
                        comment := "The database " ++ name ++ " has been created",
                        changes := [(name, "Present")] },
          cmds := e.cmds ++ c.cmds, logs := e.logs ++ c.logs }
      | some false =>
        { val := some { r0 with
                        comment := "Failed to create database " ++ name,
                        result := some false },
          cmds := e.cmds ++ c.cmds, logs := e.logs ++ c.logs }

/-- states/postgres_database.py absent (lines 69-110).  When db_remove returns
False (the drop did not take effect), control falls through to the shared
fallback, which reports the database as not present with result still True. -/
def absent (w : World) (k : Nat) (name : String)
    (pguser pgpassword pghost pgport : Option String) : Res StateRet :=
  let r0 : StateRet := { name := name, changes := [], result := some true, comment := "" }
  let fallback : StateRet :=
    { r0 with comment := "Database " ++ name ++ " is not present, so it cannot be removed" }
  let e := db_exists w k name pguser pgpassword pghost pgport
  match e.val with
  | none => { val := none, cmds := e.cmds, logs := e.logs }
  | some true =>
    if w.test then
      { val := some { r0 with
                      result := none,
                      comment := "Database " ++ name ++ " is set to be removed" },
        cmds := e.cmds, logs := e.logs }
    else
      let rm := db_remove w (k + e.cmds.length) name pguser pgpassword pghost pgport false
      match rm.val with
      | none => { val := none, cmds := e.cmds ++ rm.cmds, logs := e.logs ++ rm.logs }
      | some true =>
        { val := some { r0 with
                        comment := "Database " ++ name ++ " has been removed",
                        changes := [(name, "Absent")] },
          cmds := e.cmds ++ rm.cmds, logs := e.logs ++ rm.logs }
      | some false =>
        { val := some fallback, cmds := e.cmds ++ rm.cmds, logs := e.logs ++ rm.logs }
  | some false =>
    { val := some fallback, cmds := e.cmds, logs := e.logs }

end Salt.PostgresDatabase

namespace Salt.PostgresUser

/-- states/postgres_user.py present (lines 14-79).  The module user_create
returns the raw output of the CREATE USER command; present treats any
nonempty output as success. -/
def present (w : World) (k : Nat) (name : String)
    (createdb createuser encrypted : Bool)
    (pguser pgpassword pghost pgport : Option String) : Res StateRet :=
  let r0 : StateRet :=
    { name := name, changes := [], result := some true,
      comment := "User " ++ name ++ " is already present" }
  let e := user_exists w k name pguser pgpassword pghost pgport
  match e.val with
  | none => { val := none, cmds := e.cmds, logs := e.logs }
  | some true => { val := some r0, cmds := e.cmds, logs := e.logs }
  | some false =>
    if w.test then
      { val := some { r0 with
                      result := none,
                      comment := "User " ++ name ++ " is set to be created" },
        cmds := e.cmds, logs := e.logs }
    else
      let c := user_create w (k + e.cmds.length) name pguser pgpassword pghost pgport
        createdb createuser encrypted none
      match c.val with
      | none => { val := none, cmds := e.cmds ++ c.cmds, logs := e.logs ++ c.logs }
      | some v =>
        if v.isTruthy then
          { val := some { r0 with
                          comment := "The user " ++ name ++ " has been created",
                          changes := [(name, "Present")] },
            cmds := e.cmds ++ c.cmds, logs := e.logs ++ c.logs }
        else
          { val := some { r0 with
                          comment := "Failed to create user " ++ name,
                          result := some false },
            cmds := e.cmds ++ c.cmds, logs := e.logs ++ c.logs }

/-- states/postgres_user.py absent (lines 82-122).  When user_remove returns
False, control falls out of the if-chain and the initial result (True) and
empty comment are returned unchanged. -/
def absent (w : World) (k : Nat) (name : String)
    (pguser pgpassword pghost pgport : Option String) : Res StateRet :=
  let r0 : StateRet := { name := name, changes := [], result := some true, comment := "" }
  let e := user_exists w k name pguser pgpassword pghost pgport
  match e.val with
  | none => { val := none, cmds := e.cmds, logs := e.logs }
  | some true =>
    if w.test then
      { val := some { r0 with
                      result := none,
                      comment := "User " ++ name ++ " is set to be removed" },
        cmds := e.cmds, logs := e.logs }
    else
      let rm := user_remove w (k + e.cmds.length) name pguser pgpassword pghost pgport
      match rm.val with
      | none => { val := none, cmds := e.cmds ++ rm.cmds, logs := e.logs ++ rm.logs }
      | some true =>
        { val := some { r0 with
                        comment := "User " ++ name ++ " has been removed",
                        changes := [(name, "Absent")] },
          cmds := e.cmds ++ rm.cmds, logs := e.logs ++ rm.logs }
      | some false =>
        { val := some r0, cmds := e.cmds ++ rm.cmds, logs := e.logs ++ rm.logs }
  | some false =>
    { val := some { r0 with
                    comment := "User " ++ name ++ " is not present, so it cannot be removed" },
      cmds := e.cmds, logs := e.logs }

end Salt.PostgresUser

namespace Salt

/-- A database listing (column count 6) whose only data row is named x. -/
def dbTableX : String := "Name|Owner|Encoding|Collate|Ctype|\nx|o|e|c|c|"

/-- A role listing (column count 13) whose only data row is named existing. -/
def roleTable : String := "rolname|b|c|d|e|f|g|h|i|j|k|l|\nexisting|1|2|3|4|5|6|7|8|9|10|11|"

/-- A role listing (column count 13) whose only data row is named u. -/
def roleTableU : String := "rolname|b|c|d|e|f|g|h|i|j|k|l|\nu|1|2|3|4|5|6|7|8|9|10|11|"

/-- World for claim C1: every external command produces empty output, so no
line of any listing splits into the expected number of segments. -/
def c1World : World :=
  { opts := fun _ => none, pillar := fun _ => none, test := false,
    responses := fun _ => "" }

/-- Spec-side definition (spec sections 4.1 and 8, claim C4): the first
non-empty value in the ordered candidate list, if any.  Written from the
spec's words, to be compared with `_connection_defaults`. -/
def specFirstNonEmpty : List (Option String) → Option String
  | [] => none
  | x :: rest => if truthy x then x else specFirstNonEmpty rest

/-- World for claim C2: no configuration, live mode; the role u never appears
in the role listing, and the third external command (the CREATE USER issued by
user_create) prints an error message on its output. -/
def c2World : World :=
  { opts := fun _ => none, pillar := fun _ => none, test := false,
    responses := fun n => if n == 2 then "ERROR: role creation failed" else roleTable }

/-- World for claim C3: no configuration, live mode; the database x appears in
every listing, so the drop visibly has no effect. -/
def c3World : World :=
  { opts := fun _ => none, pillar := fun _ => none, test := false,
    responses := fun _ => dbTableX }

/-- World for claim C6: the database a exists, the template t does not. -/
def c6World : World :=
  { opts := fun _ => none, pillar := fun _ => none, test := false,
    responses := fun _ => "Name|Owner|Encoding|Collate|Ctype|\na|o|e|c|c|" }

/-- World for claim C6's witness: neither the target nor the template exists. -/
def c6bWorld : World :=
  { opts := fun _ => none, pillar := fun _ => none, test := false,
    responses := fun _ => dbTableX }

/-- World for claim C7: the database x appears in every listing. -/
def c7World : World :=
  { opts := fun _ => none, pillar := fun _ => none, test := false,
    responses := fun _ => dbTableX }

/-- World for claim C8's witness: dry-run mode, database x absent. -/
def c8World : World :=
  { opts := fun _ => none, pillar := fun _ => none, test := true,
    responses := fun _ => "Name|Owner|Encoding|Collate|Ctype|\nother|o|e|c|c|" }

/-- World for claim C9: no configuration at all, so no secret resolves; the
role u exists. -/
def c9World : World :=
  { opts := fun _ => none, pillar := fun _ => none, test := false,
    responses := fun _ => roleTableU }

/-- World for claim C10: the role u exists in every listing. -/
def c10World : World :=
  { opts := fun _ => none, pillar := fun _ => none, test := false,
    responses := fun _ => roleTableU }

theorem truthy_some_iff (s : String) : truthy (some s) = true ↔ s ≠ "" := by
  simp [truthy]

theorem chain_of_truthy (o p dflt : Option String) (x : Option String)
    (hx : truthy x = true) : chain (some (x.getD "")) o p dflt = x := by
  rcases x with _ | s
  · simp [truthy] at hx
  · simp only [Option.getD_some]
    simp [chain, hx]

theorem truthy_chain (arg o p : Option String) (d : String) (hd : d ≠ "") :
    truthy (chain arg o p (some d)) = true := by
  unfold chain pyOr
  split_ifs with h1 h2 h3
  exacts [h1, h2, h3, by simp [truthy, hd]]

theorem chain_idem (arg o p : Option String) (d : String) (hd : d ≠ "") :
    chain (some ((chain arg o p (some d)).getD "")) o p (some d) =
      chain arg o p (some d) :=
  chain_of_truthy _ _ _ _ (truthy_chain arg o p d hd)

theorem chain_none_idem (arg o p : Option String) :
    chain (chain arg o p none) o p none = chain arg o p none := by
  by_cases h1 : truthy arg = true
  · simp [chain, h1]
  · have hbase : chain arg o p none = pyOr o (pyOr p none) := by
      simp [chain, h1]
    by_cases h2 : truthy o = true
    · rw [hbase]
      simp [pyOr, h2, chain]
    · by_cases h3 : truthy p = true
      · rw [hbase]
        simp [pyOr, h2, h3, chain]
      · rw [hbase]
        simp [pyOr, h2, h3, chain, truthy]

theorem resolve_idem (w : World) (a b c d : Option String) :
    _connection_defaults w (some (_connection_defaults w a b c d).pguser)
      (_connection_defaults w a b c d).pgpassword
      (some (_connection_defaults w a b c d).pghost)
      (some (_connection_defaults w a b c d).pgport) =
      _connection_defaults w a b c d := by
  unfold _connection_defaults
  simp only [Conn.mk.injEq]
  refine ⟨?_, ?_, ?_, ?_⟩
  · rw [chain_idem _ _ _ _ (by decide)]
  · exact chain_none_idem _ _ _
  · rw [chain_idem _ _ _ _ (by decide)]
  · rw [chain_idem _ _ _ _ (by decide)]

end Salt

namespace Salt

theorem db_exists_resolved (w : World) (k : Nat) (n : String) (a b c d : Option String) :
    db_exists w k n (some (_connection_defaults w a b c d).pguser)
      (_connection_defaults w a b c d).pgpassword
      (some (_connection_defaults w a b c d).pghost)
      (some (_connection_defaults w a b c d).pgport) =
      db_exists w k n a b c d := by
  unfold db_exists
  rw [resolve_idem]

theorem user_exists_resolved (w : World) (k : Nat) (n : String) (a b c d : Option String) :
    user_exists w k n (some (_connection_defaults w a b c d).pguser)
      (_connection_defaults w a b c d).pgpassword
      (some (_connection_defaults w a b c d).pghost)
      (some (_connection_defaults w a b c d).pgport) =
      user_exists w k n a b c d := by
  unfold user_exists
  rw [resolve_idem]

theorem db_exists_cmds (w : World) (k : Nat) (n : String) (a b c d : Option String) :
    (db_exists w k n a b c d).cmds =
      [{ line := "psql -w -l -h " ++ (_connection_defaults w a b c d).pghost ++ " -U " ++
           (_connection_defaults w a b c d).pguser ++ "  -p " ++
           (_connection_defaults w a b c d).pgport,
         env := pgpassEnv (_connection_defaults w a b c d).pgpassword }] := by
  simp only [db_exists, db_list]
  rw [resolve_idem]

theorem user_exists_cmds (w : World) (k : Nat) (n : String) (a b c d : Option String) :
    (user_exists w k n a b c d).cmds =
      [{ line := "psql -w -h " ++ (_connection_defaults w a b c d).pghost ++ " -U " ++
           (_connection_defaults w a b c d).pguser ++ " -p " ++
           (_connection_defaults w a b c d).pgport ++
           " -P pager postgres -c \"SELECT * FROM pg_roles\"",
         env := pgpassEnv (_connection_defaults w a b c d).pgpassword }] := by
  simp only [user_exists, user_list]
  rw [resolve_idem]

theorem db_exists_cmds_length (w : World) (k : Nat) (n : String) (a b c d : Option String) :
    (db_exists w k n a b c d).cmds.length = 1 := by
  rw [db_exists_cmds]
  rfl

theorem user_exists_cmds_length (w : World) (k : Nat) (n : String) (a b c d : Option String) :
    (user_exists w k n a b c d).cmds.length = 1 := by
  rw [user_exists_cmds]
  rfl

theorem db_exists_logs (w : World) (k : Nat) (n : String) (a b c d : Option String) :
    (db_exists w k n a b c d).logs = [] := by
  unfold db_exists db_list
  rfl

theorem user_exists_logs (w : World) (k : Nat) (n : String) (a b c d : Option String) :
    (user_exists w k n a b c d).logs = [] := by
  unfold user_exists user_list
  rfl

theorem env_db_list (w : World) (k : Nat) (a b c d : Option String) :
    ∀ x ∈ (db_list w k a b c d).cmds,
      x.env = pgpassEnv (_connection_defaults w a b c d).pgpassword := by
  intro x hx
  simp [db_list] at hx
  rw [hx]

theorem env_user_list (w : World) (k : Nat) (a b c d : Option String) :
    ∀ x ∈ (user_list w k a b c d).cmds,
      x.env = pgpassEnv (_connection_defaults w a b c d).pgpassword := by
  intro x hx
  simp [user_list] at hx
  rw [hx]

theorem env_db_exists (w : World) (k : Nat) (n : String) (a b c d : Option String) :
    ∀ x ∈ (db_exists w k n a b c d).cmds,
      x.env = pgpassEnv (_connection_defaults w a b c d).pgpassword := by
  intro x hx
  rw [db_exists_cmds] at hx
  simp at hx
  rw [hx]

theorem env_user_exists (w : World) (k : Nat) (n : String) (a b c d : Option String) :
    ∀ x ∈ (user_exists w k n a b c d).cmds,
      x.env = pgpassEnv (_connection_defaults w a b c d).pgpassword := by
  intro x hx
  rw [user_exists_cmds] at hx
  simp at hx
  rw [hx]

end Salt

namespace Salt

/-- Claim C1.  The claim states that on raw output in which no line splits
into the expected segment count (6 for databases, 13 for roles), the tabular
parse of db_list / user_list returns an empty record sequence without
failing, the header extraction never touching a missing first line.  This is
false on the code: the header access `lines[0]` is unguarded, so on such
input the parse raises IndexError — modelled as `none` (not `some []`) —
e.g. on empty command output, on a rows-only banner, and hence db_list
itself fails rather than returning an empty list. -/
theorem c1_no_qualifying_lines_fails :
    parse_tabular 6 "" = none ∧
    parse_tabular 13 "" = none ∧
    parse_tabular 6 "List of databases\n(0 rows)" = none ∧
    (db_list c1World 0 none none none none).val = none ∧
    (user_list c1World 0 none none none none).val = none := by decide

/-- Claim C2.  The claim states that a live present() on a resource observed
absent invokes create and then re-probes existence, reporting success exactly
when the post-probe observes the resource.  On the role path this is false:
user_create returns the raw output of the CREATE USER command with no
re-probe, and the state treats any nonempty output (here an error message)
as success — in c2World the engine reports changed and succeeded although a
probe of the post-state still observes the role absent. -/
theorem c2_user_create_not_verified :
    (PostgresUser.present c2World 0 "u" false false false none none none none).val =
      some { name := "u", changes := [("u", "Present")], result := some true,
             comment := "The user u has been created" } ∧
    (user_create c2World 1 "u" none none none none false false false none).val =
      some (PyRet.str "ERROR: role creation failed") ∧
    (user_exists c2World 3 "u" none none none none).val = some false := by decide

/-- Claim C3.  The claim states that a live absent() on a database observed
present whose post-drop re-probe still observes it present reports
changed=false and succeeded=false with a removal-failure message.  In
c3World the pre-check observes x present and db_remove returns False (the
re-probe still sees x), yet the state falls through to its shared fallback:
result remains True and the comment claims the database is not present. -/
theorem c3_failed_removal_reports_success :
    (db_exists c3World 0 "x" none none none none).val = some true ∧
    (db_remove c3World 1 "x" none none none none false).val = some false ∧
    (PostgresDatabase.absent c3World 0 "x" none none none none).val =
      some { name := "x", changes := [], result := some true,
             comment := "Database x is not present, so it cannot be removed" } := by decide

/-- Claim C10.  The claim states that user_remove's and user_update's
existence probes use exactly the connection parameters used for the mutating
command.  False: the probes pass arguments positionally, so with
pguser=U, pgpassword=P, pghost=H, pgport=5 the probes connect with host 5,
port 5432 and PGPASSWORD=H, while the dropuser / ALTER USER commands use
host H, port 5 and PGPASSWORD=P. -/
theorem c10_probe_uses_shifted_params :
    (user_remove c10World 0 "u" (some "U") (some "P") (some "H") (some "5")).cmds =
      [{ line := "psql -w -h 5 -U U -p 5432 -P pager postgres -c \"SELECT * FROM pg_roles\"",
         env := [("PGPASSWORD", "H")] },
       { line := "dropuser -w -h H -U U -p 5 u", env := [("PGPASSWORD", "P")] },
       { line := "psql -w -h 5 -U U -p 5432 -P pager postgres -c \"SELECT * FROM pg_roles\"",
         env := [("PGPASSWORD", "H")] }] ∧
    (user_update c10World 0 "u" (some "U") (some "P") (some "H") (some "5")
        false false false none).cmds =
      [{ line := "psql -w -h 5 -U U -p 5432 -P pager postgres -c \"SELECT * FROM pg_roles\"",
         env := [("PGPASSWORD", "H")] },
       { line := "psql -w -h H -U U -p 5 -c \"ALTER USER u\"",
         env := [("PGPASSWORD", "P")] }] := by decide

/-- Counterexample to claim C6 as stated.  In c6World the template t is
absent, so the claim applies; db_create on the already-existing target a
indeed issues no create command and fails, but it reports "already exists"
and never mentions the missing template. -/
theorem c6_counterexample :
    (db_exists c6World 0 "t" none none none none).val = some false ∧
    (db_create c6World 0 "a" none none none none none none none none none none
        (some "t")).val = some false ∧
    (db_create c6World 0 "a" none none none none none none none none none none
        (some "t")).logs = ["DB \x27a\x27 already exists"] ∧
    "template \x27t\x27 does not exist." ∉
      (db_create c6World 0 "a" none none none none none none none none none none
        (some "t")).logs := by decide

/-- Counterexample to claim C7 as stated.  A live forced db_remove of the
present database x issues four external commands (the pre-probe listing, the
terminate-sessions command, the drop command, the post-probe listing), not
exactly two. -/
theorem c7_counterexample :
    (db_exists c7World 0 "x" none none none none).val = some true ∧
    (db_remove c7World 0 "x" none none none none true).cmds.length = 4 := by decide

/-- Counterexample to claim C9 as stated.  In c9World no secret resolves
(the resolved pgpassword is none), yet user_remove passes a PGPASSWORD entry
— bound to the resolved host — on both of its probe commands, because the
probes' positional-argument slip shifts pghost into the pgpassword slot. -/
theorem c9_counterexample :
    (_connection_defaults c9World none none none none).pgpassword = none ∧
    (user_remove c9World 0 "u" none none none none).cmds =
      [{ line := "psql -w -h 5432 -U postgres -p 5432 -P pager postgres -c \"SELECT * FROM pg_roles\"",
         env := [("PGPASSWORD", "127.0.0.1")] },
       { line := "dropuser -w -h 127.0.0.1 -U postgres -p 5432 u", env := [] },
       { line := "psql -w -h 5432 -U postgres -p 5432 -P pager postgres -c \"SELECT * FROM pg_roles\"",
         env := [("PGPASSWORD", "127.0.0.1")] }] := by decide

end Salt

namespace Salt

theorem chain_spec (arg o p : Option String) (d : String) :
    (chain arg o p (some d)).getD "" = (specFirstNonEmpty [arg, o, p]).getD d := by
  by_cases h1 : truthy arg = true
  · rcases arg with _ | s
    · simp [truthy] at h1
    · simp [chain, specFirstNonEmpty, h1]
  · by_cases h2 : truthy o = true
    · rcases o with _ | s
      · simp [truthy] at h2
      · simp [chain, pyOr, specFirstNonEmpty, h1, h2]
    · by_cases h3 : truthy p = true
      · rcases p with _ | s
        · simp [truthy] at h3
        · simp [chain, pyOr, specFirstNonEmpty, h1, h2, h3]
      · simp [chain, pyOr, specFirstNonEmpty, h1, h2, h3]

theorem chain_spec_none (arg o p : Option String) :
    chain arg o p none = specFirstNonEmpty [arg, o, p] := by
  simp only [chain, pyOr, specFirstNonEmpty]

theorem chain_empty_arg (o p dflt : Option String) :
    chain (some "") o p dflt = chain none o p dflt := by
  have h1 : truthy (some "") = false := by decide
  have h2 : truthy none = false := by decide
  simp [chain, h1, h2]

/-- Claim C4: for each of principal, host and port, resolution returns the
first non-empty value among explicit argument, opts entry, pillar entry, in
that order, falling back to the fixed defaults "postgres", "127.0.0.1" and
"5432"; the secret is left unset when no source supplies a non-empty value;
and an explicit empty-string argument behaves exactly like an unsupplied
one, for each of the four parameters. -/
theorem c4_parameter_resolution (w : World) (a b c d : Option String) :
    (_connection_defaults w a b c d).pguser =
      (specFirstNonEmpty [a, w.opts "postgres.pguser", w.pillar "postgres.pguser"]).getD "postgres" ∧
    (_connection_defaults w a b c d).pghost =
      (specFirstNonEmpty [c, w.opts "postgres.pghost", w.pillar "postgres.pghost"]).getD "127.0.0.1" ∧
    (_connection_defaults w a b c d).pgport =
      (specFirstNonEmpty [d, w.opts "postgres.pgport", w.pillar "postgres.pgport"]).getD "5432" ∧
    (_connection_defaults w a b c d).pgpassword =
      specFirstNonEmpty [b, w.opts "postgres.pgpassword", w.pillar "postgres.pgpassword"] ∧
    _connection_defaults w (some "") b c d = _connection_defaults w none b c d ∧
    _connection_defaults w a (some "") c d = _connection_defaults w a none c d ∧
    _connection_defaults w a b (some "") d = _connection_defaults w a b none d ∧
    _connection_defaults w a b c (some "") = _connection_defaults w a b c none := by
  refine ⟨chain_spec _ _ _ _, chain_spec _ _ _ _, chain_spec _ _ _ _, chain_spec_none _ _ _,
    ?_, ?_, ?_, ?_⟩ <;>
    · unfold _connection_defaults
      rw [chain_empty_arg]

end Salt

namespace Salt

/-- Claim C5: on the spec's sample header and data row with expected column
count 6 the parse yields exactly the one record with the five trimmed pairs,
the trailing empty segment dropped; inserting any line whose split yields a
segment count other than 6 (e.g. 5 or 7) leaves the parse unchanged; and
inserting, at any position, a qualifying data line whose first trimmed
segment is empty (given a qualifying line precedes it, so it is not the
header — the mid-table separator/divider case) leaves the parse unchanged. -/
theorem c5_parser_exactness :
    parse_tabular 6 "Name | Owner | Encoding | Collate | Ctype |\nalpha | bob | UTF8 | C | C |" =
      some [[("Name", "alpha"), ("Owner", "bob"), ("Encoding", "UTF8"),
             ("Collate", "C"), ("Ctype", "C")]] ∧
    (∀ pre post l, (pySplit '|' l).length ≠ 6 →
      parse_lines 6 (pre ++ l :: post) = parse_lines 6 (pre ++ post)) ∧
    (∀ pre post l, (∃ x ∈ pre, (pySplit '|' x).length = 6) →
      (pySplit '|' l).length = 6 →
      ((pySplit '|' l).map pyStrip).headD "" = "" →
      parse_lines 6 (pre ++ l :: post) = parse_lines 6 (pre ++ post)) := by
  refine ⟨by decide, ?_, ?_⟩
  · intro pre post l hl
    have hl6 : ((pySplit '|' l).length == 6) = false := by simpa using hl
    unfold parse_lines qualLines
    simp only [List.filter_append, List.filter_cons, hl6]
    simp
  · intro pre post l hex hq hempty
    have hq6 : ((pySplit '|' l).length == 6) = true := by simpa using hq
    unfold parse_lines qualLines
    simp only [List.filter_append, List.filter_cons, hq6, if_true]
    rcases hsplit : List.filter (fun x => (pySplit '|' x).length == 6) pre with _ | ⟨l0, rest⟩
    · obtain ⟨x, hx, hx6⟩ := hex
      have hmem : x ∈ List.filter (fun x => (pySplit '|' x).length == 6) pre :=
        List.mem_filter.mpr ⟨hx, by simpa using hx6⟩
      rw [hsplit] at hmem
      simp at hmem
    · simp only [List.cons_append]
      rw [List.filterMap_append, List.filterMap_append]
      have hempty' : (Option.map pyStrip (pySplit '|' l).head?).getD "" = "" := by
        simpa using hempty
      simp [hempty']

end Salt

namespace Salt

/-- Witness for C5's quantified parts at concrete inputs: a 7-segment row is
excluded, and a qualifying divider row whose first trimmed segment is empty,
sitting between the header and a data row, is excluded. -/
theorem c5_parser_exactness_witness :
    parse_lines 6 (["a|b|c|d|e|"] ++ "1|2|3|4|5|6|7" :: []) =
      parse_lines 6 (["a|b|c|d|e|"] ++ []) ∧
    parse_lines 6 (["a|b|c|d|e|"] ++ " |x|x|x|x|x" :: ["r|o|e|c|c|"]) =
      parse_lines 6 (["a|b|c|d|e|"] ++ ["r|o|e|c|c|"]) := by
  refine ⟨c5_parser_exactness.2.1 ["a|b|c|d|e|"] [] "1|2|3|4|5|6|7" (by decide),
    c5_parser_exactness.2.2 ["a|b|c|d|e|"] ["r|o|e|c|c|"] " |x|x|x|x|x"
      ⟨"a|b|c|d|e|", by simp, by decide⟩ (by decide) (by decide)⟩

end Salt

namespace Salt

/-- Claim C8: in dry-run mode (opts[test] set), each of the four state
functions issues exactly the commands of its single pre-check probe — so no
create, drop or alter command is ever issued and the backing store is
untouched — and whenever the pre-check reports that a mutation would be
needed, the returned result carries the pending sentinel None (not True, not
False) and no changes. -/
theorem c8_dry_run_never_mutates (w : World) (k : Nat) (nm : String) (ow : Option String)
    (cb cu en : Bool) (a b c d : Option String) (htest : w.test = true) :
    ((PostgresDatabase.present w k nm ow a b c d).cmds = (db_exists w k nm a b c d).cmds ∧
      ((db_exists w k nm a b c d).val = some false →
        (PostgresDatabase.present w k nm ow a b c d).val =
          some { name := nm, changes := [], result := none,
                 comment := "Database " ++ nm ++ " is set to be created" })) ∧
    ((PostgresDatabase.absent w k nm a b c d).cmds = (db_exists w k nm a b c d).cmds ∧
      ((db_exists w k nm a b c d).val = some true →
        (PostgresDatabase.absent w k nm a b c d).val =
          some { name := nm, changes := [], result := none,
                 comment := "Database " ++ nm ++ " is set to be removed" })) ∧
    ((PostgresUser.present w k nm cb cu en a b c d).cmds = (user_exists w k nm a b c d).cmds ∧
      ((user_exists w k nm a b c d).val = some false →
        (PostgresUser.present w k nm cb cu en a b c d).val =
          some { name := nm, changes := [], result := none,
                 comment := "User " ++ nm ++ " is set to be created" })) ∧
    ((PostgresUser.absent w k nm a b c d).cmds = (user_exists w k nm a b c d).cmds ∧
      ((user_exists w k nm a b c d).val = some true →
        (PostgresUser.absent w k nm a b c d).val =
          some { name := nm, changes := [], result := none,
                 comment := "User " ++ nm ++ " is set to be removed" })) := by
  refine ⟨⟨?_, ?_⟩, ⟨?_, ?_⟩, ⟨?_, ?_⟩, ⟨?_, ?_⟩⟩
  · rcases hval : (db_exists w k nm a b c d).val with _ | b
    · simp [PostgresDatabase.present, hval]
    · cases b <;> simp [PostgresDatabase.present, hval, htest]
  · intro hfalse
    simp [PostgresDatabase.present, hfalse, htest]
  · rcases hval : (db_exists w k nm a b c d).val with _ | b
    · simp [PostgresDatabase.absent, hval]
    · cases b <;> simp [PostgresDatabase.absent, hval, htest]
  · intro htrue
    simp [PostgresDatabase.absent, htrue, htest]
  · rcases hval : (user_exists w k nm a b c d).val with _ | b
    · simp [PostgresUser.present, hval]
    · cases b <;> simp [PostgresUser.present, hval, htest]
  · intro hfalse
    simp [PostgresUser.present, hfalse, htest]
  · rcases hval : (user_exists w k nm a b c d).val with _ | b
    · simp [PostgresUser.absent, hval]
    · cases b <;> simp [PostgresUser.absent, hval, htest]
  · intro htrue
    simp [PostgresUser.absent, htrue, htest]

end Salt

namespace Salt

/-- Witness for C8 at a concrete dry-run world in which database x is absent:
only the probe command runs and the result is the pending sentinel. -/
theorem c8_dry_run_never_mutates_witness :
    (PostgresDatabase.present c8World 0 "x" none none none none none).cmds =
      (db_exists c8World 0 "x" none none none none).cmds ∧
    (PostgresDatabase.present c8World 0 "x" none none none none none).val =
      some { name := "x", changes := [], result := none,
             comment := "Database " ++ "x" ++ " is set to be created" } :=
  ⟨(c8_dry_run_never_mutates c8World 0 "x" none false false false none none none none rfl).1.1,
   (c8_dry_run_never_mutates c8World 0 "x" none false false false none none none none rfl).1.2
     (by decide)⟩

end Salt

namespace Salt

/-- Claim C6, amended.  For every db_create call whose target the pre-check
observes absent and whose template attribute names a database the existence
check reports absent, the call returns the failure value False, issues no
create command — its trace is exactly the two existence-probe listing
commands — and reports the missing template by name.  (As stated the claim
also covered calls whose target already exists; those fail without a create
command too, but report "already exists" instead of the missing template —
see the counterexample.) -/
theorem c6_template_precondition (w : World) (k : Nat) (nm : String)
    (a b c d ts enc lo lcc lct ow : Option String) (t : String)
    (ht : t ≠ "")
    (h1 : (db_exists w k nm a b c d).val = some false)
    (h2 : (db_exists w (k + 1) t a b c d).val = some false) :
    (db_create w k nm a b c d ts enc lo lcc lct ow (some t)).val = some false ∧
    (db_create w k nm a b c d ts enc lo lcc lct ow (some t)).cmds =
      (db_exists w k nm a b c d).cmds ++ (db_exists w (k + 1) t a b c d).cmds ∧
    (db_create w k nm a b c d ts enc lo lcc lct ow (some t)).logs =
      ["template \x27" ++ t ++ "\x27 does not exist."] := by
  have htt : truthy (some t) = true := by simp [truthy, ht]
  simp only [db_create, db_exists_resolved, db_exists_cmds_length, Option.getD_some,
    h1, htt, if_true, h2, db_exists_logs]
  simp

/-- Witness for C6 at a concrete world in which neither the target newdb nor
the template tpl exists. -/
theorem c6_template_precondition_witness :
    (db_create c6bWorld 0 "newdb" none none none none none none none none none none
        (some "tpl")).val = some false ∧
    (db_create c6bWorld 0 "newdb" none none none none none none none none none none
        (some "tpl")).cmds =
      (db_exists c6bWorld 0 "newdb" none none none none).cmds ++
        (db_exists c6bWorld 1 "tpl" none none none none).cmds ∧
    (db_create c6bWorld 0 "newdb" none none none none none none none none none none
        (some "tpl")).logs = ["template \x27tpl\x27 does not exist."] :=
  c6_template_precondition c6bWorld 0 "newdb" none none none none none none none none none none
    "tpl" (by decide) (by decide) (by decide)

end Salt

namespace Salt

/-- Claim C7, amended.  For every live forced db_remove of a database the
pre-check observes present, the trace is exactly: the pre-probe listing,
then the terminate-active-sessions command, then immediately the drop
command, then the post-probe listing — so exactly two external commands
besides the two existence probes, terminate first, drop second.  The world
(and hence the outcome of the terminate command) is arbitrary and the drop
command appears unconditionally, so a terminate-sessions failure never
prevents the drop from being issued.  (As stated the claim counted exactly
two external commands in total; the probes make it four — see the
counterexample.) -/
theorem c7_forced_drop_ordering (w : World) (k : Nat) (nm : String) (a b c d : Option String)
    (h1 : (db_exists w k nm a b c d).val = some true) :
    (db_remove w k nm a b c d true).cmds =
      (db_exists w k nm a b c d).cmds ++
        ({ line := "psql -w -h " ++ (_connection_defaults w a b c d).pghost ++ " -U " ++
             (_connection_defaults w a b c d).pguser ++ " -p " ++
             (_connection_defaults w a b c d).pgport ++
             " -c \x27SELECT pg_terminate_backend(pg_stat_activity.procpid) FROM pg_stat_activity WHERE pg_stat_activity.datname=\"" ++ nm ++ "\"\x27",
           env := pgpassEnv (_connection_defaults w a b c d).pgpassword } ::
         { line := "dropdb -w -h " ++ (_connection_defaults w a b c d).pghost ++ " -U " ++
             (_connection_defaults w a b c d).pguser ++ " -p " ++
             (_connection_defaults w a b c d).pgport ++ " " ++ nm,
           env := pgpassEnv (_connection_defaults w a b c d).pgpassword } ::
         (db_exists w (k + 3) nm a b c d).cmds) := by
  have hk : k + 1 + 1 + 1 = k + 3 := by omega
  simp only [db_remove, db_exists_resolved, h1, db_exists_cmds_length, if_true,
    List.length_cons, List.length_nil, Nat.zero_add, hk]
  rcases hv2 : (db_exists w (k + 3) nm a b c d).val with _ | b2
  · simp [hv2]
  · cases b2 <;> simp [hv2]

end Salt

namespace Salt

/-- Witness for C7 at a concrete world with database x present. -/
theorem c7_forced_drop_ordering_witness :
    (db_remove c7World 0 "x" none none none none true).cmds =
      (db_exists c7World 0 "x" none none none none).cmds ++
        ({ line := "psql -w -h " ++ (_connection_defaults c7World none none none none).pghost ++
             " -U " ++ (_connection_defaults c7World none none none none).pguser ++ " -p " ++
             (_connection_defaults c7World none none none none).pgport ++
             " -c \x27SELECT pg_terminate_backend(pg_stat_activity.procpid) FROM pg_stat_activity WHERE pg_stat_activity.datname=\"" ++ "x" ++ "\"\x27",
           env := pgpassEnv (_connection_defaults c7World none none none none).pgpassword } ::
         { line := "dropdb -w -h " ++ (_connection_defaults c7World none none none none).pghost ++
             " -U " ++ (_connection_defaults c7World none none none none).pguser ++ " -p " ++
             (_connection_defaults c7World none none none none).pgport ++ " " ++ "x",
           env := pgpassEnv (_connection_defaults c7World none none none none).pgpassword } ::
         (db_exists c7World (0 + 3) "x" none none none none).cmds) :=
  c7_forced_drop_ordering c7World 0 "x" none none none none (by decide)

end Salt

namespace Salt

theorem resolve_pgpassword (w : World) (a b c d : Option String) :
    (_connection_defaults w a b c d).pgpassword =
      chain b (w.opts "postgres.pgpassword") (w.pillar "postgres.pgpassword") none := rfl

theorem resolve_pghost (w : World) (a b c d : Option String) :
    (_connection_defaults w a b c d).pghost =
      (chain c (w.opts "postgres.pghost") (w.pillar "postgres.pghost") (some "127.0.0.1")).getD "" :=
  rfl

theorem truthy_some_getD (x : Option String) (h : truthy x = true) :
    truthy (some (x.getD "")) = true := by
  rcases x with _ | s
  · simp [truthy] at h
  · simpa using h

theorem chain_truthy_arg (s : String) (hs : truthy (some s) = true) (o p dflt : Option String) :
    chain (some s) o p dflt = some s := by
  simp [chain, hs]

theorem truthy_resolved_pghost (w : World) (a b c d : Option String) :
    truthy (some (_connection_defaults w a b c d).pghost) = true := by
  rw [resolve_pghost]
  exact truthy_some_getD _ (truthy_chain _ _ _ _ (by decide))

/-- Resolving with pghost passed in the pgpassword slot (the positional slip
of user_update / user_remove): since the resolved host is always nonempty,
the shifted call resolves its password to that host. -/
theorem resolve_shifted_pgpassword (w : World) (a b c d : Option String) :
    (_connection_defaults w (some (_connection_defaults w a b c d).pguser)
      (some (_connection_defaults w a b c d).pghost)
      (some (_connection_defaults w a b c d).pgport) none).pgpassword =
      some (_connection_defaults w a b c d).pghost := by
  rw [resolve_pgpassword]
  exact chain_truthy_arg _ (truthy_resolved_pghost w a b c d) _ _ _

theorem db_create_run_cmds (w : World) (k : Nat) (nm : String) (conn : Conn) (cmd : String)
    (cmds0 : List Cmd) (logs0 : List String) :
    (db_create_run w k nm conn cmd cmds0 logs0).cmds =
      cmds0 ++ { line := cmd, env := pgpassEnv conn.pgpassword } ::
        (db_exists w (k + 1) nm (some conn.pguser) conn.pgpassword (some conn.pghost)
          (some conn.pgport)).cmds := by
  simp only [db_create_run]
  rcases hv : (db_exists w (k + 1) nm (some conn.pguser) conn.pgpassword (some conn.pghost)
      (some conn.pgport)).val with _ | b
  · simp [hv]
  · cases b <;> simp [hv]

end Salt

namespace Salt

theorem env_db_create (w : World) (k : Nat) (nm : String)
    (a b c d ts enc lo lcc lct ow tp : Option String) :
    ∀ x ∈ (db_create w k nm a b c d ts enc lo lcc lct ow tp).cmds,
      x.env = pgpassEnv (_connection_defaults w a b c d).pgpassword := by
  intro x hx
  simp only [db_create, db_exists_resolved, db_exists_cmds_length] at hx
  rcases hv1 : (db_exists w k nm a b c d).val with _ | b1
  · simp only [hv1] at hx
    exact env_db_exists w k nm a b c d x hx
  · cases b1
    · simp only [hv1] at hx
      by_cases htp : truthy tp = true
      · rw [if_pos htp] at hx
        rcases hv2 : (db_exists w (k + 1) (tp.getD "") a b c d).val with _ | b2
        · simp only [hv2] at hx
          rcases List.mem_append.mp hx with h | h
          · exact env_db_exists w k nm a b c d x h
          · exact env_db_exists w (k + 1) _ a b c d x h
        · cases b2
          · simp only [hv2] at hx
            rcases List.mem_append.mp hx with h | h
            · exact env_db_exists w k nm a b c d x h
            · exact env_db_exists w (k + 1) _ a b c d x h
          · simp only [hv2] at hx
            rw [db_create_run_cmds, db_exists_resolved] at hx
            rcases List.mem_append.mp hx with h | h
            · rcases List.mem_append.mp h with h2 | h2
              · exact env_db_exists w k nm a b c d x h2
              · exact env_db_exists w (k + 1) _ a b c d x h2
            · rcases List.mem_cons.mp h with h2 | h2
              · rw [h2]
              · exact env_db_exists w _ nm a b c d x h2
      · rw [if_neg htp] at hx
        rw [db_create_run_cmds, db_exists_resolved] at hx
        rcases List.mem_append.mp hx with h | h
        · exact env_db_exists w k nm a b c d x h
        · rcases List.mem_cons.mp h with h2 | h2
          · rw [h2]
          · exact env_db_exists w _ nm a b c d x h2
    · simp only [hv1] at hx
      exact env_db_exists w k nm a b c d x hx

end Salt

namespace Salt

theorem env_db_remove (w : World) (k : Nat) (nm : String)
    (a b c d : Option String) (force : Bool) :
    ∀ x ∈ (db_remove w k nm a b c d force).cmds,
      x.env = pgpassEnv (_connection_defaults w a b c d).pgpassword := by
  intro x hx
  cases force
  · simp only [db_remove, db_exists_resolved, db_exists_cmds_length, Bool.false_eq_true,
      if_false, List.length_nil] at hx
    rcases hv1 : (db_exists w k nm a b c d).val with _ | b1
    · simp only [hv1] at hx
      exact env_db_exists w k nm a b c d x hx
    · cases b1
      · simp only [hv1] at hx
        exact env_db_exists w k nm a b c d x hx
      · simp only [hv1] at hx
        rcases hv2 : (db_exists w (k + 1 + 0 + 1) nm a b c d).val with _ | b2
        · simp only [hv2, List.mem_append, List.mem_cons, List.not_mem_nil, or_false] at hx
          rcases hx with h | rfl | h
          · exact env_db_exists w k nm a b c d x h
          · rfl
          · exact env_db_exists w _ nm a b c d x h
        · cases b2
          · simp only [hv2, List.mem_append, List.mem_cons, List.not_mem_nil, or_false] at hx
            rcases hx with h | rfl | h
            · exact env_db_exists w k nm a b c d x h
            · rfl
            · exact env_db_exists w _ nm a b c d x h
          · simp only [hv2, List.mem_append, List.mem_cons, List.not_mem_nil, or_false] at hx
            rcases hx with h | rfl | h
            · exact env_db_exists w k nm a b c d x h
            · rfl
            · exact env_db_exists w _ nm a b c d x h
  · simp only [db_remove, db_exists_resolved, db_exists_cmds_length, if_true,
      List.length_cons, List.length_nil, Nat.zero_add] at hx
    rcases hv1 : (db_exists w k nm a b c d).val with _ | b1
    · simp only [hv1] at hx
      exact env_db_exists w k nm a b c d x hx
    · cases b1
      · simp only [hv1] at hx
        exact env_db_exists w k nm a b c d x hx
      · simp only [hv1] at hx
        rcases hv2 : (db_exists w (k + 1 + 1 + 1) nm a b c d).val with _ | b2
        · simp only [hv2, List.mem_append, List.mem_cons, List.mem_singleton,
            List.not_mem_nil, or_false] at hx
          rcases hx with (h | rfl) | rfl | h
          · exact env_db_exists w k nm a b c d x h
          · rfl
          · rfl
          · exact env_db_exists w _ nm a b c d x h
        · cases b2
          · simp only [hv2, List.mem_append, List.mem_cons, List.mem_singleton,
              List.not_mem_nil, or_false] at hx
            rcases hx with (h | rfl) | rfl | h
            · exact env_db_exists w k nm a b c d x h
            · rfl
            · rfl
            · exact env_db_exists w _ nm a b c d x h
          · simp only [hv2, List.mem_append, List.mem_cons, List.mem_singleton,
              List.not_mem_nil, or_false] at hx
            rcases hx with (h | rfl) | rfl | h
            · exact env_db_exists w k nm a b c d x h
            · rfl
            · rfl
            · exact env_db_exists w _ nm a b c d x h

end Salt

namespace Salt

theorem env_user_create (w : World) (k : Nat) (nm : String)
    (a b c d : Option String) (cb cu en : Bool) (pw : Option String) :
    ∀ x ∈ (user_create w k nm a b c d cb cu en pw).cmds,
      x.env = pgpassEnv (_connection_defaults w a b c d).pgpassword := by
  intro x hx
  simp only [user_create, user_exists_resolved, user_exists_cmds_length] at hx
  rcases hv1 : (user_exists w k nm a b c d).val with _ | b1
  · simp only [hv1] at hx
    exact env_user_exists w k nm a b c d x hx
  · cases b1
    · simp only [hv1, List.mem_append, List.mem_singleton] at hx
      rcases hx with h | rfl
      · exact env_user_exists w k nm a b c d x h
      · rfl
    · simp only [hv1] at hx
      exact env_user_exists w k nm a b c d x hx

theorem env_user_update (w : World) (k : Nat) (nm : String)
    (a b c d : Option String) (cb cu en : Bool) (pw : Option String) :
    ∀ x ∈ (user_update w k nm a b c d cb cu en pw).cmds,
      x.env = pgpassEnv (_connection_defaults w a b c d).pgpassword ∨
      x.env = pgpassEnv (some (_connection_defaults w a b c d).pghost) := by
  intro x hx
  simp only [user_update, user_exists_cmds_length] at hx
  rcases hv1 : (user_exists w k nm (some (_connection_defaults w a b c d).pguser)
      (some (_connection_defaults w a b c d).pghost)
      (some (_connection_defaults w a b c d).pgport) none).val with _ | b1
  · simp only [hv1] at hx
    right
    have h2 := env_user_exists w k nm _ _ _ _ x hx
    rwa [resolve_shifted_pgpassword] at h2
  · cases b1
    · simp only [hv1] at hx
      right
      have h2 := env_user_exists w k nm _ _ _ _ x hx
      rwa [resolve_shifted_pgpassword] at h2
    · simp only [hv1, List.mem_append, List.mem_singleton] at hx
      rcases hx with h | rfl
      · right
        have h2 := env_user_exists w k nm _ _ _ _ x h
        rwa [resolve_shifted_pgpassword] at h2
      · left
        rfl

theorem env_user_remove (w : World) (k : Nat) (nm : String) (a b c d : Option String) :
    ∀ x ∈ (user_remove w k nm a b c d).cmds,
      x.env = pgpassEnv (_connection_defaults w a b c d).pgpassword ∨
      x.env = pgpassEnv (some (_connection_defaults w a b c d).pghost) := by
  intro x hx
  simp only [user_remove, user_exists_cmds_length] at hx
  rcases hv1 : (user_exists w k nm (some (_connection_defaults w a b c d).pguser)
      (some (_connection_defaults w a b c d).pghost)
      (some (_connection_defaults w a b c d).pgport) none).val with _ | b1
  · simp only [hv1] at hx
    right
    have h2 := env_user_exists w k nm _ _ _ _ x hx
    rwa [resolve_shifted_pgpassword] at h2
  · cases b1
    · simp only [hv1] at hx
      right
      have h2 := env_user_exists w k nm _ _ _ _ x hx
      rwa [resolve_shifted_pgpassword] at h2
    · simp only [hv1] at hx
      rcases hv2 : (user_exists w (k + 1 + 1) nm
          (some (_connection_defaults w a b c d).pguser)
          (some (_connection_defaults w a b c d).pghost)
          (some (_connection_defaults w a b c d).pgport) none).val with _ | b2
      · simp only [hv2, List.mem_append, List.mem_cons] at hx
        rcases hx with h | rfl | h
        · right
          have h2 := env_user_exists w k nm _ _ _ _ x h
          rwa [resolve_shifted_pgpassword] at h2
        · left
          rfl
        · right
          have h2 := env_user_exists w (k + 1 + 1) nm _ _ _ _ x h
          rwa [resolve_shifted_pgpassword] at h2
      · cases b2
        · simp only [hv2, List.mem_append, List.mem_cons] at hx
          rcases hx with h | rfl | h
          · right
            have h2 := env_user_exists w k nm _ _ _ _ x h
            rwa [resolve_shifted_pgpassword] at h2
          · left
            rfl
          · right
            have h2 := env_user_exists w (k + 1 + 1) nm _ _ _ _ x h
            rwa [resolve_shifted_pgpassword] at h2
        · simp only [hv2, List.mem_append, List.mem_cons] at hx
          rcases hx with h | rfl | h
          · right
            have h2 := env_user_exists w k nm _ _ _ _ x h
            rwa [resolve_shifted_pgpassword] at h2
          · left
            rfl
          · right
            have h2 := env_user_exists w (k + 1 + 1) nm _ _ _ _ x h
            rwa [resolve_shifted_pgpassword] at h2

end Salt

namespace Salt

theorem pgpassEnv_mem_iff (p : Option String) :
    (∃ v, ("PGPASSWORD", v) ∈ pgpassEnv p) ↔ truthy p = true := by
  unfold pgpassEnv
  by_cases hp : truthy p = true
  · simp [hp]
  · simp [hp]

/-- Claim C9, amended.  The env mapping built for a composed command binds
PGPASSWORD exactly when the password resolved from the arguments of the call
that composed it is truthy (non-None, nonempty), and binds nothing else.
Concretely: every command issued by db_list, user_list, db_exists,
user_exists, db_create, db_remove and user_create carries the env derived
from that call's own resolved secret; user_update and user_remove pass that
env on the ALTER USER / dropuser command they compose, but — because their
existence probes shift pghost into the pgpassword slot — each of their probe
commands instead carries PGPASSWORD bound to the resolved host, even when no
secret resolves (see the counterexample for the claim as stated). -/
theorem c9_secret_env_injection (w : World) (k : Nat) (nm : String)
    (a b c d : Option String) (cb cu en force : Bool)
    (pw ts enc lo lcc lct ow tp : Option String) :
    (∀ p : Option String, (∃ v, ("PGPASSWORD", v) ∈ pgpassEnv p) ↔ truthy p = true) ∧
    (∀ x ∈ (db_list w k a b c d).cmds,
      x.env = pgpassEnv (_connection_defaults w a b c d).pgpassword) ∧
    (∀ x ∈ (user_list w k a b c d).cmds,
      x.env = pgpassEnv (_connection_defaults w a b c d).pgpassword) ∧
    (∀ x ∈ (db_exists w k nm a b c d).cmds,
      x.env = pgpassEnv (_connection_defaults w a b c d).pgpassword) ∧
    (∀ x ∈ (user_exists w k nm a b c d).cmds,
      x.env = pgpassEnv (_connection_defaults w a b c d).pgpassword) ∧
    (∀ x ∈ (db_create w k nm a b c d ts enc lo lcc lct ow tp).cmds,
      x.env = pgpassEnv (_connection_defaults w a b c d).pgpassword) ∧
    (∀ x ∈ (db_remove w k nm a b c d force).cmds,
      x.env = pgpassEnv (_connection_defaults w a b c d).pgpassword) ∧
    (∀ x ∈ (user_create w k nm a b c d cb cu en pw).cmds,
      x.env = pgpassEnv (_connection_defaults w a b c d).pgpassword) ∧
    (∀ x ∈ (user_update w k nm a b c d cb cu en pw).cmds,
      x.env = pgpassEnv (_connection_defaults w a b c d).pgpassword ∨
      x.env = pgpassEnv (some (_connection_defaults w a b c d).pghost)) ∧
    (∀ x ∈ (user_remove w k nm a b c d).cmds,
      x.env = pgpassEnv (_connection_defaults w a b c d).pgpassword ∨
      x.env = pgpassEnv (some (_connection_defaults w a b c d).pghost)) :=
  ⟨pgpassEnv_mem_iff, env_db_list w k a b c d, env_user_list w k a b c d,
   env_db_exists w k nm a b c d, env_user_exists w k nm a b c d,
   env_db_create w k nm a b c d ts enc lo lcc lct ow tp,
   env_db_remove w k nm a b c d force, env_user_create w k nm a b c d cb cu en pw,
   env_user_update w k nm a b c d cb cu en pw, env_user_remove w k nm a b c d⟩

/-- Witness for C9 at a concrete input: the probe command of a secretless
user_remove call carries the env of one of the two designated resolutions
(here, the host shifted into the password slot). -/
theorem c9_secret_env_injection_witness :
    ({ line := "psql -w -h 5432 -U postgres -p 5432 -P pager postgres -c \"SELECT * FROM pg_roles\"",
       env := [("PGPASSWORD", "127.0.0.1")] } : Cmd).env =
      pgpassEnv (_connection_defaults c9World none none none none).pgpassword ∨
    ({ line := "psql -w -h 5432 -U postgres -p 5432 -P pager postgres -c \"SELECT * FROM pg_roles\"",
       env := [("PGPASSWORD", "127.0.0.1")] } : Cmd).env =
      pgpassEnv (some (_connection_defaults c9World none none none none).pghost) :=
  (c9_secret_env_injection c9World 0 "u" none none none none false false false false
    none none none none none none none none).2.2.2.2.2.2.2.2.2 _ (by decide)

end Salt
